import Mathlib

/-!
Verification of the service-directory repository (`sd/api.py`, `sd/model.py`,
`sd/cli.py`) against its natural-language specification.

The database state is embedded shallowly: every persisted row of the two
declared model classes (`Service`, `API` in `sd/model.py`) is a `Record`
tagged with its class, and a SQLAlchemy session threading through an endpoint
is a state monad over the `Store`.  Raised Python exceptions (`NotFoundError`
and `DuplicateError` from `sd/api.py`, and the builtin `AttributeError` that a
lookup of a missing module attribute raises) are an `Except` error type.
-/

namespace SD

/-- Exceptions the embedded code can raise: `NotFoundError` (404) and
`DuplicateError` (409) are the `APIError` subclasses declared at the top of
`sd/api.py`; `AttributeError` is the Python builtin raised when an attribute
missing from a module (such as `model.Group`) is accessed. -/
inductive Exc : Type
| NotFoundError (msg : String)
| DuplicateError (msg : String)
| AttributeError (msg : String)
deriving DecidableEq

/-- The concrete model classes that `sd/model.py` defines (besides the
abstract base `Model`): `Service` and `API`. -/
inductive ModelCls : Type
| Service
| API
deriving DecidableEq

/-- `cls.__name__`, as interpolated into guard error messages. -/
def ModelCls.clsName : ModelCls → String
| .Service => "Service"
| .API => "API"

/-- One persisted row.  Every model class inherits `id` and `label` from
`Model`; `service_type` and `endpoint` are the extra columns of `Service`,
and `apis` holds the ids linked through the `service_api` join table
(`Service.api` relationship).  The `cls` tag records which table the row
lives in. -/
structure Record : Type where
  id : Nat
  cls : ModelCls
  label : String
  service_type : Option String := none
  endpoint : Option String := none
  apis : List Nat := []
deriving DecidableEq

/-- A row of the table of some class owned by another record, as queried by
`_namespaced_query`: such a class has an `owner` relationship and a `label`.
`sd/model.py` declares no owned class, but the four namespaced helpers in
`sd/api.py` are generic in `cls_inner`, so its table is modelled as a list of
these rows. -/
structure NRecord : Type where
  id : Nat
  owner : Nat
  label : String
deriving DecidableEq

/-- The database: all rows of the `service` and `api` tables (tagged by
class), the table of the inner class handed to the namespaced helpers, and
the next auto-increment primary key. -/
structure Store : Type where
  records : List Record
  ntable : List NRecord := []
  nextId : Nat := 0
deriving DecidableEq

/-- A computation against one session: it reads and writes the store and can
raise.  A raised exception aborts the request before its `db.commit()`, so no
store results from it. -/
abbrev DB (α : Type) : Type := Store → Except Exc (α × Store)

def dbPure {α : Type} (a : α) : DB α := fun s => .ok (a, s)

def dbBind {α β : Type} (m : DB α) (f : α → DB β) : DB β := fun s =>
  match m s with
  | .ok (a, s2) => f a s2
  | .error e => .error e

instance instMonadDB : Monad DB where
  pure := dbPure
  bind := dbBind

/-- Raising an exception. -/
def dbRaise {α : Type} (e : Exc) : DB α := fun _ => .error e

/-- `session.query(cls).filter_by(label=name).first()`: the first row of the
class's table whose `label` column equals `name`. -/
def dbQueryFirst (cls : ModelCls) (name : String) : DB (Option Record) :=
  fun s => .ok (s.records.find? (fun r => decide (r.cls = cls ∧ r.label = name)), s)

/-- `db.add(obj)` for a freshly constructed object: the row is persisted with
the next auto-increment id. -/
def dbAdd (mk : Nat → Record) : DB Unit :=
  fun s => .ok ((), { s with records := s.records ++ [mk s.nextId], nextId := s.nextId + 1 })

/-- `db.delete(obj)`: removes the row of `obj`'s table whose primary key is
`obj.id`. -/
def dbDelete (r : Record) : DB Unit :=
  fun s => .ok ((), { s with records := s.records.filter (fun x => !decide (x.cls = r.cls ∧ x.id = r.id)) })

/-- `db.commit()`: in this model mutations are visible in the threaded store
as soon as they are issued and an exception discards the whole session, so
committing adds nothing further. -/
def dbCommit : DB Unit := dbPure ()

/-- An attribute lookup on the `sd.model` module.  `sd/model.py` defines the
classes `Service` and `API` (and the abstract `Model`); any other name —
in particular the `Group` that `api_create` passes to its guard — raises
`AttributeError`. -/
def modelAttr (name : String) : DB ModelCls :=
  if name = "Service" then dbPure ModelCls.Service
  else if name = "API" then dbPure ModelCls.API
  else dbRaise (.AttributeError ("module sd.model has no attribute " ++ name))

/-- `_assert_absent(session, cls, name)` from `sd/api.py`: queries for a row
of `cls` labelled `name` and raises `DuplicateError` if one is found. -/
def _assert_absent (cls : ModelCls) (name : String) : DB Unit := do
  let obj ← dbQueryFirst cls name
  match obj with
  | some _ => dbRaise (.DuplicateError (cls.clsName ++ " " ++ name ++ " already exists."))
  | none => dbPure ()

/-- `_must_find(session, cls, name)` from `sd/api.py`: queries for a row of
`cls` labelled `name`, raises `NotFoundError` if there is none, and returns
the row otherwise. -/
def _must_find (cls : ModelCls) (name : String) : DB Record := do
  let obj ← dbQueryFirst cls name
  match obj with
  | none => dbRaise (.NotFoundError (cls.clsName ++ " " ++ name ++ " does not exist."))
  | some r => dbPure r

/-- `_namespaced_query(session, obj_outer, cls_inner, name_inner)`:
`session.query(cls_inner).filter_by(owner=obj_outer).filter_by(label=name_inner).first()`.
The inner class's table is `Store.ntable`; filtering the relationship by
`obj_outer` compares against its primary key.  `cls_inner` is carried as the
class's name, which the callers interpolate into their messages. -/
def _namespaced_query (obj_outer : Record) (cls_inner : String) (name_inner : String) :
    DB (Option NRecord) :=
  fun s =>
    .ok (s.ntable.find? (fun r => decide (r.owner = obj_outer.id ∧ r.label = name_inner)), s)

/-- `_assert_absent_n(session, obj_outer, cls_inner, name_inner)` from
`sd/api.py`: raises `DuplicateError` when the namespaced query finds a row. -/
def _assert_absent_n (obj_outer : Record) (cls_inner : String) (name_inner : String) :
    DB Unit := do
  let obj_inner ← _namespaced_query obj_outer cls_inner name_inner
  match obj_inner with
  | some _ => dbRaise (.DuplicateError (cls_inner ++ " " ++ name_inner ++ " on " ++
      obj_outer.cls.clsName ++ " " ++ obj_outer.label ++ " already exists"))
  | none => dbPure ()

/-- `_must_find_n(session, obj_outer, cls_inner, name_inner)` from
`sd/api.py`: raises `NotFoundError` when the namespaced query finds nothing,
and returns the row otherwise. -/
def _must_find_n (obj_outer : Record) (cls_inner : String) (name_inner : String) :
    DB NRecord := do
  let obj_inner ← _namespaced_query obj_outer cls_inner name_inner
  match obj_inner with
  | none => dbRaise (.NotFoundError (cls_inner ++ " " ++ name_inner ++ " on " ++
      obj_outer.cls.clsName ++ " " ++ obj_outer.label ++ " does not exist."))
  | some r => dbPure r

/-- `PUT /service/<service>` (`service_create` in `sd/api.py`): guard against
a duplicate `Service`, resolve the referenced `API` with `_must_find`, then
construct, add and commit the new `Service` row. -/
def service_create (service service_type api endpoint : String) : DB Unit := do
  _assert_absent ModelCls.Service service
  let apiRec ← _must_find ModelCls.API api
  dbAdd (fun rid => { id := rid, cls := ModelCls.Service, label := service, service_type := some service_type, endpoint := some endpoint, apis := [apiRec.id] })
  dbCommit

/-- `DELETE /service/<service>` (`service_delete` in `sd/api.py`). -/
def service_delete (service : String) : DB Unit := do
  let svc ← _must_find ModelCls.Service service
  dbDelete svc
  dbCommit

/-- `PUT /api/<api>` (`api_create` in `sd/api.py`).  The source guards with
`_assert_absent(db, model.Group, api)`: the attribute access `model.Group` is
evaluated first, and `sd/model.py` defines no class `Group`. -/
def api_create (api : String) : DB Unit := do
  let group ← modelAttr "Group"
  _assert_absent group api
  dbAdd (fun rid => { id := rid, cls := ModelCls.API, label := api })
  dbCommit

/-- `DELETE /api/<api>` (`api_delete` in `sd/api.py`). -/
def api_delete (api : String) : DB Unit := do
  let apiRec ← _must_find ModelCls.API api
  dbDelete apiRec
  dbCommit

/-- The persisted database after a request runs: the threaded store when the
request committed, the untouched original when it raised (the session is
rolled back and discarded). -/
def finalStore {α : Type} (m : DB α) (s : Store) : Store :=
  match m s with
  | .ok (_, s2) => s2
  | .error _ => s

/-- A row of class `cls` labelled `name` is present in the store. -/
def Store.hasRec (s : Store) (cls : ModelCls) (name : String) : Prop :=
  ∃ r ∈ s.records, r.cls = cls ∧ r.label = name

instance (s : Store) (cls : ModelCls) (name : String) : Decidable (s.hasRec cls name) :=
  List.decidableBEx _ s.records

/-- At most one row of each class carries a given label: the per-type label
uniqueness invariant of §3 of the spec. -/
def Store.typeLabelsUnique (s : Store) : Prop :=
  ∀ r1 ∈ s.records, ∀ r2 ∈ s.records, r1.cls = r2.cls → r1.label = r2.label → r1 = r2

instance (s : Store) : Decidable s.typeLabelsUnique :=
  List.decidableBAll _ s.records

/-! ### Unfolding lemmas for runs of the session monad -/

theorem dbBind_apply {α β : Type} (m : DB α) (f : α → DB β) (s : Store) :
    (m >>= f) s = match m s with
      | .ok (a, s2) => f a s2
      | .error e => .error e := rfl

/-- The row-matching predicate of `_assert_absent` and `_must_find`. -/
def recMatch (cls : ModelCls) (name : String) : Record → Bool :=
  fun r => decide (r.cls = cls ∧ r.label = name)

/-- The row-matching predicate of `_namespaced_query`. -/
def nrecMatch (ownerId : Nat) (name : String) : NRecord → Bool :=
  fun r => decide (r.owner = ownerId ∧ r.label = name)

theorem assert_absent_apply (cls : ModelCls) (name : String) (s : Store) :
    _assert_absent cls name s =
      match s.records.find? (recMatch cls name) with
      | some _ => .error (.DuplicateError (cls.clsName ++ " " ++ name ++ " already exists."))
      | none => .ok ((), s) := by
  have hrun : _assert_absent cls name s =
      (match s.records.find? (recMatch cls name) with
        | some _ =>
          dbRaise (α := Unit) (.DuplicateError (cls.clsName ++ " " ++ name ++ " already exists."))
        | none => dbPure ()) s := rfl
  rw [hrun]
  cases s.records.find? (recMatch cls name) <;> rfl

theorem must_find_apply (cls : ModelCls) (name : String) (s : Store) :
    _must_find cls name s =
      match s.records.find? (recMatch cls name) with
      | some r => .ok (r, s)
      | none => .error (.NotFoundError (cls.clsName ++ " " ++ name ++ " does not exist.")) := by
  have hrun : _must_find cls name s =
      (match s.records.find? (recMatch cls name) with
        | none =>
          dbRaise (α := Record) (.NotFoundError (cls.clsName ++ " " ++ name ++ " does not exist."))
        | some r => dbPure r) s := rfl
  rw [hrun]
  cases s.records.find? (recMatch cls name) <;> rfl

theorem assert_absent_n_apply (o : Record) (cn name : String) (s : Store) :
    _assert_absent_n o cn name s =
      match s.ntable.find? (nrecMatch o.id name) with
      | some _ => .error (.DuplicateError (cn ++ " " ++ name ++ " on " ++
          o.cls.clsName ++ " " ++ o.label ++ " already exists"))
      | none => .ok ((), s) := by
  have hrun : _assert_absent_n o cn name s =
      (match s.ntable.find? (nrecMatch o.id name) with
        | some _ => dbRaise (α := Unit) (.DuplicateError (cn ++ " " ++ name ++ " on " ++
            o.cls.clsName ++ " " ++ o.label ++ " already exists"))
        | none => dbPure ()) s := rfl
  rw [hrun]
  cases s.ntable.find? (nrecMatch o.id name) <;> rfl

theorem must_find_n_apply (o : Record) (cn name : String) (s : Store) :
    _must_find_n o cn name s =
      match s.ntable.find? (nrecMatch o.id name) with
      | some r => .ok (r, s)
      | none => .error (.NotFoundError (cn ++ " " ++ name ++ " on " ++
          o.cls.clsName ++ " " ++ o.label ++ " does not exist.")) := by
  have hrun : _must_find_n o cn name s =
      (match s.ntable.find? (nrecMatch o.id name) with
        | none => dbRaise (α := NRecord) (.NotFoundError (cn ++ " " ++ name ++ " on " ++
            o.cls.clsName ++ " " ++ o.label ++ " does not exist."))
        | some r => dbPure r) s := rfl
  rw [hrun]
  cases s.ntable.find? (nrecMatch o.id name) <;> rfl

theorem hasRec_iff_find?_isSome (s : Store) (cls : ModelCls) (name : String) :
    s.hasRec cls name ↔ (s.records.find? (recMatch cls name)).isSome := by
  rw [List.find?_isSome]
  constructor
  · rintro ⟨r, hr, h1, h2⟩
    exact ⟨r, hr, by simp [recMatch, h1, h2]⟩
  · rintro ⟨r, hr, hp⟩
    simp only [recMatch, decide_eq_true_eq] at hp
    exact ⟨r, hr, hp⟩

theorem dbBind_error {α β : Type} (m : DB α) (f : α → DB β) (s : Store) (e : Exc)
    (h : m s = .error e) : (m >>= f) s = .error e := by
  rw [dbBind_apply, h]

/-- `_assert_absent` returns normally when no matching row exists. -/
theorem assert_absent_ok (s : Store) (cls : ModelCls) (name : String)
    (h : ¬ s.hasRec cls name) : _assert_absent cls name s = .ok ((), s) := by
  rw [assert_absent_apply]
  cases hf : s.records.find? (recMatch cls name) with
  | none => rfl
  | some r => exact absurd ((hasRec_iff_find?_isSome s cls name).2 (by simp [hf])) h

/-- `_assert_absent` raises `DuplicateError` when a matching row exists. -/
theorem assert_absent_err (s : Store) (cls : ModelCls) (name : String)
    (h : s.hasRec cls name) :
    _assert_absent cls name s =
      .error (.DuplicateError (cls.clsName ++ " " ++ name ++ " already exists.")) := by
  rcases Option.isSome_iff_exists.1 ((hasRec_iff_find?_isSome s cls name).1 h) with ⟨r, hr⟩
  rw [assert_absent_apply, hr]

/-- `_must_find` raises `NotFoundError` when no matching row exists. -/
theorem must_find_err (s : Store) (cls : ModelCls) (name : String)
    (h : ¬ s.hasRec cls name) :
    _must_find cls name s =
      .error (.NotFoundError (cls.clsName ++ " " ++ name ++ " does not exist.")) := by
  rw [must_find_apply]
  cases hf : s.records.find? (recMatch cls name) with
  | none => rfl
  | some r => exact absurd ((hasRec_iff_find?_isSome s cls name).2 (by simp [hf])) h

/-- `_must_find` returns a matching row of the store when one exists. -/
theorem must_find_ok (s : Store) (cls : ModelCls) (name : String)
    (h : s.hasRec cls name) :
    ∃ r, _must_find cls name s = .ok (r, s) ∧
      r ∈ s.records ∧ r.cls = cls ∧ r.label = name := by
  rcases Option.isSome_iff_exists.1 ((hasRec_iff_find?_isSome s cls name).1 h) with ⟨r, hr⟩
  have hp := List.find?_some hr
  simp only [recMatch, decide_eq_true_eq] at hp
  exact ⟨r, by rw [must_find_apply, hr], List.mem_of_find?_eq_some hr, hp.1, hp.2⟩

/-- Running `api_create`: the attribute lookup `model.Group` raises before
anything else happens, on every store and for every name. -/
theorem api_create_apply (api : String) (s : Store) :
    api_create api s =
      .error (.AttributeError ("module sd.model has no attribute " ++ "Group")) := by
  have h : modelAttr "Group" s =
      .error (.AttributeError ("module sd.model has no attribute " ++ "Group")) := by
    unfold modelAttr
    rw [if_neg (by decide), if_neg (by decide)]
    rfl
  unfold api_create
  exact dbBind_error _ _ _ _ h

/-- Running `api_delete`: remove the first `API` row labelled `api`, or raise
`NotFoundError` when there is none. -/
theorem api_delete_apply (api : String) (s : Store) :
    api_delete api s =
      match s.records.find? (recMatch ModelCls.API api) with
      | none => .error (.NotFoundError ("API " ++ api ++ " does not exist."))
      | some r => .ok ((), { s with
          records := s.records.filter (fun x => !decide (x.cls = r.cls ∧ x.id = r.id)) }) := by
  unfold api_delete
  simp only [dbBind_apply, dbDelete, dbCommit, dbPure]
  rw [must_find_apply]
  cases s.records.find? (recMatch ModelCls.API api) <;> rfl

/-- Running `service_delete`: remove the first `Service` row labelled
`service`, or raise `NotFoundError` when there is none. -/
theorem service_delete_apply (service : String) (s : Store) :
    service_delete service s =
      match s.records.find? (recMatch ModelCls.Service service) with
      | none => .error (.NotFoundError ("Service " ++ service ++ " does not exist."))
      | some r => .ok ((), { s with
          records := s.records.filter (fun x => !decide (x.cls = r.cls ∧ x.id = r.id)) }) := by
  unfold service_delete
  simp only [dbBind_apply, dbDelete, dbCommit, dbPure]
  rw [must_find_apply]
  cases s.records.find? (recMatch ModelCls.Service service) <;> rfl

/-- Running `service_create`: the duplicate-`Service` guard runs first, the
`API` lookup second, and only then is the row added. -/
theorem service_create_apply (svc st api ep : String) (s : Store) :
    service_create svc st api ep s =
      match s.records.find? (recMatch ModelCls.Service svc) with
      | some _ => .error (.DuplicateError ("Service " ++ svc ++ " already exists."))
      | none =>
        match s.records.find? (recMatch ModelCls.API api) with
        | none => .error (.NotFoundError ("API " ++ api ++ " does not exist."))
        | some apiRec => .ok ((), { s with
            records := s.records ++ [{ id := s.nextId, cls := ModelCls.Service, label := svc, service_type := some st, endpoint := some ep, apis := [apiRec.id] }],
            nextId := s.nextId + 1 }) := by
  unfold service_create
  simp only [dbBind_apply, dbAdd, dbCommit, dbPure]
  rw [assert_absent_apply]
  cases s.records.find? (recMatch ModelCls.Service svc) with
  | some r => rfl
  | none =>
    simp only []
    rw [must_find_apply]
    cases s.records.find? (recMatch ModelCls.API api) <;> rfl

/-! ### Claim theorems -/

/-- C1: for every entity type `T` and label `L`, if no record of type `T`
with label `L` exists in the store, `_assert_absent` returns normally; if
such a record exists, it raises `DuplicateError` carrying a message that
identifies the type and the name. -/
theorem C1_assert_absent_guard (s : Store) (cls : ModelCls) (name : String) :
    (¬ s.hasRec cls name → _assert_absent cls name s = .ok ((), s)) ∧
    (s.hasRec cls name →
      _assert_absent cls name s =
        .error (.DuplicateError (cls.clsName ++ " " ++ name ++ " already exists."))) := by
  constructor
  · intro h
    rw [assert_absent_apply]
    cases hf : s.records.find? (recMatch cls name) with
    | none => rfl
    | some r =>
      exact absurd ((hasRec_iff_find?_isSome s cls name).2 (by simp [hf])) h
  · intro h
    rcases Option.isSome_iff_exists.1 ((hasRec_iff_find?_isSome s cls name).1 h) with ⟨r, hr⟩
    rw [assert_absent_apply, hr]

def w1S : Store := { records := [{ id := 0, cls := ModelCls.API, label := "a" }], nextId := 1 }

/-- Witness for C1 at a concrete store holding one `API` labelled `"a"`. -/
theorem C1_witness :
    ¬ w1S.hasRec ModelCls.API "b" ∧
    _assert_absent ModelCls.API "b" w1S = .ok ((), w1S) ∧
    w1S.hasRec ModelCls.API "a" ∧
    _assert_absent ModelCls.API "a" w1S = .error (.DuplicateError "API a already exists.") :=
  ⟨by decide, (C1_assert_absent_guard w1S ModelCls.API "b").1 (by decide),
   by decide, (C1_assert_absent_guard w1S ModelCls.API "a").2 (by decide)⟩

/-- C2: for every entity type `T` and label `L`, if a record of type `T`
with label `L` exists in the store, `_must_find` returns a matching record
(of type `T`, labelled `L`, drawn from the store); if none exists, it raises
`NotFoundError` carrying a message that identifies the type and the name. -/
theorem C2_must_find_guard (s : Store) (cls : ModelCls) (name : String) :
    (s.hasRec cls name → ∃ r, _must_find cls name s = .ok (r, s) ∧
      r ∈ s.records ∧ r.cls = cls ∧ r.label = name) ∧
    (¬ s.hasRec cls name →
      _must_find cls name s =
        .error (.NotFoundError (cls.clsName ++ " " ++ name ++ " does not exist."))) := by
  constructor
  · intro h
    rcases Option.isSome_iff_exists.1 ((hasRec_iff_find?_isSome s cls name).1 h) with ⟨r, hr⟩
    have hp := List.find?_some hr
    simp only [recMatch, decide_eq_true_eq] at hp
    exact ⟨r, by rw [must_find_apply, hr], List.mem_of_find?_eq_some hr, hp.1, hp.2⟩
  · intro h
    rw [must_find_apply]
    cases hf : s.records.find? (recMatch cls name) with
    | none => rfl
    | some r =>
      exact absurd ((hasRec_iff_find?_isSome s cls name).2 (by simp [hf])) h

/-- Witness for C2 at a concrete store holding one `API` labelled `"a"`. -/
theorem C2_witness :
    w1S.hasRec ModelCls.API "a" ∧
    (∃ r, _must_find ModelCls.API "a" w1S = .ok (r, w1S) ∧
      r ∈ w1S.records ∧ r.cls = ModelCls.API ∧ r.label = "a") ∧
    ¬ w1S.hasRec ModelCls.API "b" ∧
    _must_find ModelCls.API "b" w1S = .error (.NotFoundError "API b does not exist.") :=
  ⟨by decide, (C2_must_find_guard w1S ModelCls.API "a").1 (by decide),
   by decide, (C2_must_find_guard w1S ModelCls.API "b").2 (by decide)⟩

def emptyStore : Store := { records := [] }

/-- C3 (code bug): against a store holding no record labelled `"gamma"`,
`PUT /api/gamma` does not succeed — `api_create` passes `model.Group` to its
guard, `sd/model.py` defines no class `Group`, so the request raises
`AttributeError` and no record is created; the documented
create/409/delete/404 scenario can never begin. -/
theorem C3_api_create_gamma_crashes :
    api_create "gamma" emptyStore =
      .error (.AttributeError "module sd.model has no attribute Group") ∧
    finalStore (api_create "gamma") emptyStore = emptyStore := by
  have h := api_create_apply "gamma" emptyStore
  refine ⟨h, ?_⟩
  unfold finalStore
  rw [h]

def w4Rec : Record :=
  { id := 0, cls := ModelCls.Service, label := "svc1", service_type := some "t", endpoint := some "e" }

def w4S : Store := { records := [w4Rec], nextId := 1 }

/-- C4 counterexample: in a store that already holds a `Service` labelled
`"svc1"` and no `API` at all, `service_create` for `"svc1"` referencing the
absent API `"missing-api"` raises `DuplicateError`, not the `NotFoundError`
the claim demands for every state with the referenced API absent. -/
theorem C4_counterexample :
    ¬ w4S.hasRec ModelCls.API "missing-api" ∧
    service_create "svc1" "t" "missing-api" "e" w4S =
      .error (.DuplicateError "Service svc1 already exists.") ∧
    ∀ msg, service_create "svc1" "t" "missing-api" "e" w4S ≠ .error (.NotFoundError msg) := by
  have hsc : service_create "svc1" "t" "missing-api" "e" w4S =
      .error (.DuplicateError "Service svc1 already exists.") := by
    rw [service_create_apply]
    rfl
  refine ⟨by decide, hsc, fun msg h => ?_⟩
  rw [hsc] at h
  simp at h

/-- C4 amended: for every state in which the referenced `API` label is
absent and no `Service` with the requested label exists either,
`service_create` raises `NotFoundError` and the persisted store is
unchanged — no `Service` record is added. -/
theorem C4_amended_service_create_missing_api (s : Store) (svc st api ep : String)
    (hsvc : ¬ s.hasRec ModelCls.Service svc) (hapi : ¬ s.hasRec ModelCls.API api) :
    service_create svc st api ep s =
      .error (.NotFoundError ("API " ++ api ++ " does not exist.")) ∧
    finalStore (service_create svc st api ep) s = s := by
  have hfs : s.records.find? (recMatch ModelCls.Service svc) = none := by
    cases hf : s.records.find? (recMatch ModelCls.Service svc) with
    | none => rfl
    | some r => exact absurd ((hasRec_iff_find?_isSome s ModelCls.Service svc).2 (by simp [hf])) hsvc
  have hfa : s.records.find? (recMatch ModelCls.API api) = none := by
    cases hf : s.records.find? (recMatch ModelCls.API api) with
    | none => rfl
    | some r => exact absurd ((hasRec_iff_find?_isSome s ModelCls.API api).2 (by simp [hf])) hapi
  have h : service_create svc st api ep s =
      .error (.NotFoundError ("API " ++ api ++ " does not exist.")) := by
    rw [service_create_apply, hfs, hfa]
  refine ⟨h, ?_⟩
  unfold finalStore
  rw [h]

def w4bS : Store := { records := [] }

/-- Witness for the amended C4 at the empty store. -/
theorem C4_amended_witness :
    ¬ w4bS.hasRec ModelCls.Service "svc1" ∧ ¬ w4bS.hasRec ModelCls.API "missing-api" ∧
    service_create "svc1" "t" "missing-api" "e" w4bS =
      .error (.NotFoundError "API missing-api does not exist.") ∧
    finalStore (service_create "svc1" "t" "missing-api" "e") w4bS = w4bS :=
  ⟨by decide, by decide,
   (C4_amended_service_create_missing_api w4bS "svc1" "t" "missing-api" "e"
      (by decide) (by decide)).1,
   (C4_amended_service_create_missing_api w4bS "svc1" "t" "missing-api" "e"
      (by decide) (by decide)).2⟩

theorem nhasRec_iff_find?_isSome (s : Store) (oid : Nat) (x : String) :
    (∃ r ∈ s.ntable, r.owner = oid ∧ r.label = x) ↔
      (s.ntable.find? (nrecMatch oid x)).isSome := by
  rw [List.find?_isSome]
  constructor
  · rintro ⟨r, hr, h1, h2⟩
    exact ⟨r, hr, by simp [nrecMatch, h1, h2]⟩
  · rintro ⟨r, hr, hp⟩
    simp only [nrecMatch, decide_eq_true_eq] at hp
    exact ⟨r, hr, hp⟩

/-- C5: namespaced guard scoping is strictly per owner — when an inner
record labelled `x` exists under owner `O1` and none under the distinct
owner `O2`, `_assert_absent_n` raises `DuplicateError` for `O1` and returns
normally for `O2`. -/
theorem C5_assert_absent_n_scoped (s : Store) (o1 o2 : Record) (cn x : String)
    (h12 : o1.id ≠ o2.id)
    (h1 : ∃ r ∈ s.ntable, r.owner = o1.id ∧ r.label = x)
    (h2 : ¬ ∃ r ∈ s.ntable, r.owner = o2.id ∧ r.label = x) :
    _assert_absent_n o1 cn x s = .error (.DuplicateError
      (cn ++ " " ++ x ++ " on " ++ o1.cls.clsName ++ " " ++ o1.label ++ " already exists")) ∧
    _assert_absent_n o2 cn x s = .ok ((), s) := by
  constructor
  · rcases Option.isSome_iff_exists.1 ((nhasRec_iff_find?_isSome s o1.id x).1 h1) with ⟨r, hr⟩
    rw [assert_absent_n_apply, hr]
  · rw [assert_absent_n_apply]
    cases hf : s.ntable.find? (nrecMatch o2.id x) with
    | none => rfl
    | some r => exact absurd ((nhasRec_iff_find?_isSome s o2.id x).2 (by simp [hf])) h2

def w5o1 : Record := { id := 1, cls := ModelCls.Service, label := "owner1" }

def w5o2 : Record := { id := 2, cls := ModelCls.Service, label := "owner2" }

def w5S : Store := { records := [], ntable := [{ id := 0, owner := 1, label := "x" }] }

/-- Witness for C5 with a concrete inner record `"x"` under owner id 1
only. -/
theorem C5_witness :
    w5o1.id ≠ w5o2.id ∧
    _assert_absent_n w5o1 "Inner" "x" w5S =
      .error (.DuplicateError "Inner x on Service owner1 already exists") ∧
    _assert_absent_n w5o2 "Inner" "x" w5S = .ok ((), w5S) :=
  ⟨by decide,
   (C5_assert_absent_n_scoped w5S w5o1 w5o2 "Inner" "x" (by decide)
      ⟨{ id := 0, owner := 1, label := "x" }, by decide, by decide⟩ (by decide)).1,
   (C5_assert_absent_n_scoped w5S w5o1 w5o2 "Inner" "x" (by decide)
      ⟨{ id := 0, owner := 1, label := "x" }, by decide, by decide⟩ (by decide)).2⟩

/-- C6 (code bug): the round trip cannot begin — `api_create` succeeds on no
store at all, because evaluating `model.Group` for its guard raises
`AttributeError` first; the store is left unchanged, so `"foo"` is never
findable afterwards. -/
theorem C6_api_create_never_succeeds (s : Store) :
    api_create "foo" s =
      .error (.AttributeError "module sd.model has no attribute Group") ∧
    finalStore (api_create "foo") s = s := by
  have h := api_create_apply "foo" s
  refine ⟨h, ?_⟩
  unfold finalStore
  rw [h]

/-- C9: all four guard helpers are read-only — for every store and all
arguments, the persisted store after the guard runs (whether it returns or
raises) is the store it was given. -/
theorem C9_guards_read_only (s : Store) (cls : ModelCls) (o : Record) (cn name : String) :
    finalStore (_assert_absent cls name) s = s ∧
    finalStore (_must_find cls name) s = s ∧
    finalStore (_assert_absent_n o cn name) s = s ∧
    finalStore (_must_find_n o cn name) s = s := by
  refine ⟨?_, ?_, ?_, ?_⟩
  · unfold finalStore
    rw [assert_absent_apply]
    cases s.records.find? (recMatch cls name) <;> rfl
  · unfold finalStore
    rw [must_find_apply]
    cases s.records.find? (recMatch cls name) <;> rfl
  · unfold finalStore
    rw [assert_absent_n_apply]
    cases s.ntable.find? (nrecMatch o.id name) <;> rfl
  · unfold finalStore
    rw [must_find_n_apply]
    cases s.ntable.find? (nrecMatch o.id name) <;> rfl

/-- C10: when a `Service` with the requested label already exists and the
referenced `API` label is absent, `service_create` raises `DuplicateError`,
not `NotFoundError` — the duplicate-service guard runs before the API
lookup. -/
theorem C10_service_create_duplicate_wins (s : Store) (svc st api ep : String)
    (hsvc : s.hasRec ModelCls.Service svc) (hapi : ¬ s.hasRec ModelCls.API api) :
    service_create svc st api ep s =
      .error (.DuplicateError ("Service " ++ svc ++ " already exists.")) := by
  rcases Option.isSome_iff_exists.1
    ((hasRec_iff_find?_isSome s ModelCls.Service svc).1 hsvc) with ⟨r, hr⟩
  rw [service_create_apply, hr]

def w10Rec : Record :=
  { id := 0, cls := ModelCls.Service, label := "svc1", service_type := some "t", endpoint := some "e" }

def w10S : Store := { records := [w10Rec], nextId := 1 }

/-- Witness for C10: a store holding only the `Service` `"svc1"`. -/
theorem C10_witness :
    w10S.hasRec ModelCls.Service "svc1" ∧ ¬ w10S.hasRec ModelCls.API "missing-api" ∧
    service_create "svc1" "t" "missing-api" "e" w10S =
      .error (.DuplicateError "Service svc1 already exists.") :=
  ⟨by decide, by decide,
   C10_service_create_duplicate_wins w10S "svc1" "t" "missing-api" "e" (by decide) (by decide)⟩

/-- After deleting the row `_must_find` located for `(cls, L)`, no row of
class `cls` labelled `L` remains — provided per-type labels were unique. -/
theorem find?_of_deleted_none (s : Store) (cls : ModelCls) (L : String) (r : Record)
    (hu : s.typeLabelsUnique) (hr : s.records.find? (recMatch cls L) = some r) :
    (s.records.filter
      (fun x => !decide (x.cls = r.cls ∧ x.id = r.id))).find? (recMatch cls L) = none := by
  rw [List.find?_eq_none]
  intro x hx hpx
  simp only [recMatch, decide_eq_true_eq] at hpx
  rw [List.mem_filter] at hx
  obtain ⟨hxs, hxne⟩ := hx
  have hrc := List.find?_some hr
  simp only [recMatch, decide_eq_true_eq] at hrc
  have hxr : x = r :=
    hu x hxs r (List.mem_of_find?_eq_some hr) (hpx.1.trans hrc.1.symm) (hpx.2.trans hrc.2.symm)
  subst hxr
  simp at hxne

/-- C7: on a store whose per-type labels are unique, once a delete of label
`L` has succeeded, repeating the same delete raises `NotFoundError` — with
exactly that error, so neither a crash of another kind nor a silent
success — for the API endpoint and the Service endpoint alike. -/
theorem C7_delete_twice_not_found (s : Store) (L : String) (hu : s.typeLabelsUnique) :
    (∀ s2, api_delete L s = .ok ((), s2) →
      api_delete L s2 = .error (.NotFoundError ("API " ++ L ++ " does not exist."))) ∧
    (∀ s2, service_delete L s = .ok ((), s2) →
      service_delete L s2 = .error (.NotFoundError ("Service " ++ L ++ " does not exist."))) := by
  constructor
  · intro s2 h
    rw [api_delete_apply] at h
    cases hf : s.records.find? (recMatch ModelCls.API L) with
    | none => rw [hf] at h; exact absurd h (by simp)
    | some r =>
      rw [hf] at h
      simp only [Except.ok.injEq, Prod.mk.injEq, true_and] at h
      subst h
      rw [api_delete_apply]
      have hnone := find?_of_deleted_none s ModelCls.API L r hu hf
      dsimp only
      rw [hnone]
  · intro s2 h
    rw [service_delete_apply] at h
    cases hf : s.records.find? (recMatch ModelCls.Service L) with
    | none => rw [hf] at h; exact absurd h (by simp)
    | some r =>
      rw [hf] at h
      simp only [Except.ok.injEq, Prod.mk.injEq, true_and] at h
      subst h
      rw [service_delete_apply]
      have hnone := find?_of_deleted_none s ModelCls.Service L r hu hf
      dsimp only
      rw [hnone]

def w7A : Record := { id := 0, cls := ModelCls.API, label := "a" }

def w7Svc : Record :=
  { id := 1, cls := ModelCls.Service, label := "a", service_type := some "t", endpoint := some "e" }

def w7S : Store := { records := [w7A, w7Svc], nextId := 2 }

def w7S2 : Store := { records := [w7Svc], nextId := 2 }

/-- Witness for C7: deleting API `"a"` once succeeds, the second delete
raises `NotFoundError`. -/
theorem C7_witness :
    w7S.typeLabelsUnique ∧
    api_delete "a" w7S = .ok ((), w7S2) ∧
    api_delete "a" w7S2 = .error (.NotFoundError "API a does not exist.") :=
  ⟨by decide, by rfl,
   (C7_delete_twice_not_found w7S "a" (by decide)).1 w7S2 (by rfl)⟩

/-! ### The declared schema (for C8) -/

/-- A column declaration with the constraint flags SQLAlchemy's `Column`
accepts; `sd/model.py` sets only `primary_key` and `nullable`, never
`unique`. -/
structure ColumnDef : Type where
  colName : String
  primaryKey : Bool := false
  nullable : Bool := true
  unique : Bool := false
deriving DecidableEq

/-- The columns `Model` declares: `id = Column(Integer, primary_key=True,
nullable=False)` and `label = Column(String, nullable=False)`. -/
def modelColumns : List ColumnDef :=
  [{ colName := "id", primaryKey := true, nullable := false },
   { colName := "label", nullable := false }]

/-- The columns of the `service` table: the inherited `Model` columns plus
`service_type` and `endpoint` (the `api` relationship is not a column of
this table). -/
def serviceColumns : List ColumnDef :=
  modelColumns ++
    [{ colName := "service_type", nullable := false },
     { colName := "endpoint", nullable := false }]

/-- The columns of the `api` table: `API` adds nothing to `Model`. -/
def apiColumns : List ColumnDef := modelColumns

/-- The value a row holds in a named column, rendered as a string for
uniform comparison. -/
def colVal (r : Record) (c : String) : Option String :=
  if c = "id" then some (toString r.id)
  else if c = "label" then some r.label
  else if c = "service_type" then r.service_type
  else if c = "endpoint" then r.endpoint
  else none

/-- Whether the declared schema admits inserting row `r` alongside
`existing`: every column declared unique (the primary key included) must
not repeat a value already present.  This is all the relational engine
enforces at commit time, so it is what stops — or fails to stop — a racing
duplicate create that already passed the guard. -/
def schemaAdmitsInsert (cols : List ColumnDef) (existing : List Record) (r : Record) : Bool :=
  cols.all fun c =>
    !((c.unique || c.primaryKey) &&
      existing.any (fun e => colVal e c.colName == colVal r c.colName))

def c8Existing : Record := { id := 0, cls := ModelCls.API, label := "x" }

def c8Racing : Record := { id := 1, cls := ModelCls.API, label := "x" }

/-- C8 counterexample: no column of either table carries a unique constraint
on `label`, so a second `API` row with an already-present label — exactly
what a racing duplicate create that passed the guard would insert — is
admitted by the schema instead of rejected. -/
theorem C8_counterexample :
    schemaAdmitsInsert apiColumns [c8Existing] c8Racing = true ∧
    (∀ c ∈ apiColumns, c.colName = "label" → c.unique = false ∧ c.primaryKey = false) ∧
    (∀ c ∈ serviceColumns, c.colName = "label" → c.unique = false ∧ c.primaryKey = false) := by
  decide

theorem typeLabelsUnique_delete (s : Store) (p : Record → Bool) (hu : s.typeLabelsUnique) :
    Store.typeLabelsUnique { s with records := s.records.filter p } :=
  fun r1 h1 r2 h2 => hu r1 (List.mem_of_mem_filter h1) r2 (List.mem_of_mem_filter h2)

theorem typeLabelsUnique_insert (s : Store) (r : Record) (hu : s.typeLabelsUnique)
    (habs : ¬ s.hasRec r.cls r.label) :
    Store.typeLabelsUnique { s with records := s.records ++ [r], nextId := s.nextId + 1 } := by
  intro r1 h1 r2 h2 hc hl
  dsimp only at h1 h2
  rw [List.mem_append, List.mem_singleton] at h1 h2
  rcases h1 with h1 | h1 <;> rcases h2 with h2 | h2
  · exact hu r1 h1 r2 h2 hc hl
  · subst h2; exact absurd ⟨r1, h1, hc, hl⟩ habs
  · subst h1; exact absurd ⟨r2, h2, hc.symm, hl.symm⟩ habs
  · subst h1; subst h2; rfl

/-- C8 amended: per-type label uniqueness is an invariant maintained by the
guarded endpoint operations — every operation run on a store with unique
per-type labels leaves a store with unique per-type labels — but it is
enforced only by those guards, not at the schema level: no column
declaration puts a unique (or primary-key) constraint on `label`. -/
theorem C8_amended_uniqueness_guard_only (s : Store) (svc st api ep nm L : String)
    (hu : s.typeLabelsUnique) :
    (finalStore (service_create svc st api ep) s).typeLabelsUnique ∧
    (finalStore (service_delete L) s).typeLabelsUnique ∧
    (finalStore (api_create nm) s).typeLabelsUnique ∧
    (finalStore (api_delete L) s).typeLabelsUnique ∧
    (∀ c ∈ apiColumns, c.colName = "label" → c.unique = false ∧ c.primaryKey = false) := by
  refine ⟨?_, ?_, ?_, ?_, by decide⟩
  · unfold finalStore
    rw [service_create_apply]
    cases hf1 : s.records.find? (recMatch ModelCls.Service svc) with
    | some r => exact hu
    | none =>
      cases hf2 : s.records.find? (recMatch ModelCls.API api) with
      | none => exact hu
      | some apiRec =>
        dsimp only
        have habs : ¬ s.hasRec ModelCls.Service svc := by
          rw [hasRec_iff_find?_isSome, hf1]
          simp
        exact typeLabelsUnique_insert s
          { id := s.nextId, cls := ModelCls.Service, label := svc, service_type := some st, endpoint := some ep, apis := [apiRec.id] }
          hu habs
  · unfold finalStore
    rw [service_delete_apply]
    cases hf : s.records.find? (recMatch ModelCls.Service L) with
    | none => exact hu
    | some r => exact typeLabelsUnique_delete s _ hu
  · unfold finalStore
    rw [api_create_apply]
    exact hu
  · unfold finalStore
    rw [api_delete_apply]
    cases hf : s.records.find? (recMatch ModelCls.API L) with
    | none => exact hu
    | some r => exact typeLabelsUnique_delete s _ hu

def w8S : Store := { records := [] }

/-- Witness for the amended C8 at the empty store. -/
theorem C8_amended_witness :
    Store.typeLabelsUnique w8S ∧
    (finalStore (service_delete "a") w8S).typeLabelsUnique :=
  ⟨by decide,
   (C8_amended_uniqueness_guard_only w8S "s" "t" "a" "e" "n" "a" (by decide)).2.1⟩

end SD
